import Mathlib

/-!
Shallow embedding of the spending-insights endpoint (`get_insights` in
`app/api/v1/consumer.py`) of the crEDit backend.

Dates are modelled as day numbers (`Int`), money amounts as exact rationals
(`ℚ`), and Python's `round(x, n)` as round-half-to-even at `n` decimal
places.  SQL aggregation queries are translated to the corresponding list
filters, group-bys and sums over the user's rows; grouping keys are taken in
first-occurrence order.
-/

namespace CrEdit

/-- A transaction row: calendar date (day number), merchant, signed amount
(negative = debit / spend, positive = credit), optional category. -/
structure Transaction where
  date : Int
  merchant : String
  amount : ℚ
  category : Option String
  deriving DecidableEq

/-- An account row: account type, current balance, optional credit limit. -/
structure Account where
  accountType : String
  balance : Option ℚ
  limit : Option ℚ
  deriving DecidableEq

/-- One point of the credit-utilization chart, as emitted by the endpoint. -/
structure UtilizationPoint where
  date : Int
  utilization : ℚ
  balance : ℚ
  limit : ℚ
  deriving DecidableEq

/-- One detected subscription: `{"merchant": ..., "amount": round(avg, 2)}`. -/
structure SubscriptionEntry where
  merchant : String
  amount : ℚ
  deriving DecidableEq

/-- The `subscriptions` chart object. -/
structure SubscriptionSummary where
  total_monthly : ℚ
  subscriptions : List SubscriptionEntry
  deriving DecidableEq

/-- The `summary` block of the insights response. -/
structure InsightsSummary where
  total_spending : ℚ
  average_daily_spend : ℚ
  top_category : Option String
  savings_rate : Option ℚ
  deriving DecidableEq

/-- The `charts` block of the insights response. -/
structure InsightsCharts where
  spending_by_category : List (String × ℚ)
  credit_utilization : List UtilizationPoint
  subscriptions : SubscriptionSummary
  deriving DecidableEq

/-- The `meta` block of the insights response. -/
structure ResponseMeta where
  period : String
  start_date : Int
  end_date : Int
  deriving DecidableEq

/-- The full insights response body. -/
structure InsightsResponse where
  summary : InsightsSummary
  charts : InsightsCharts
  meta : ResponseMeta
  deriving DecidableEq

/-- Errors of the endpoint: the HTTP 400 raised for a period outside
{"30d", "90d"}. -/
inductive InsightsError where
  | invalidPeriod
  deriving DecidableEq

/-- Round a rational to the nearest integer, ties to even (Python `round`). -/
def roundHalfEven (x : ℚ) : Int :=
  let f := ⌊x⌋
  let r := x - f
  if r < 1/2 then f
  else if 1/2 < r then f + 1
  else if f % 2 = 0 then f else f + 1

/-- Python's `round(x, n)` on exact rationals. -/
def pyRound (x : ℚ) (n : ℕ) : ℚ :=
  (roundHalfEven (x * 10 ^ n) : ℚ) / 10 ^ n

/-- Deduplicate a list of strings keeping first occurrences: the order in
which grouped keys are produced. -/
def dedupFirst (l : List String) : List String :=
  l.foldl (fun acc x => if x ∈ acc then acc else acc ++ [x]) []

/-- Arithmetic mean of a list of rationals (`sum(amounts) / len(amounts)`). -/
def mean (l : List ℚ) : ℚ := l.sum / l.length

/-- The rows selected by every aggregate of the endpoint: transactions with
`start_date <= date <= end_date` and `amount < 0` (debits only). -/
def windowedDebits (s e : Int) (txs : List Transaction) : List Transaction :=
  txs.filter (fun t => decide (s ≤ t.date) && decide (t.date ≤ e) && decide (t.amount < 0))

/-- `sum(abs(amount))` over the windowed debits: the total-spending query
(`None`, i.e. the empty sum, is read back as 0). -/
def totalSpending (s e : Int) (txs : List Transaction) : ℚ :=
  ((windowedDebits s e txs).map (fun t => |t.amount|)).sum

/-- `total_spending / days_in_period if days_in_period > 0 else 0.0`. -/
def averageDailySpend (total : ℚ) (days : Int) : ℚ :=
  if 0 < days then total / days else 0

/-- Sum of `abs(amount)` over the windowed debits of one category. -/
def categorySum (s e : Int) (txs : List Transaction) (c : String) : ℚ :=
  (((windowedDebits s e txs).filter (fun t => decide (t.category = some c))).map
    (fun t => |t.amount|)).sum

/-- The category-spending query: group windowed debits by non-null category,
sum `abs(amount)` per group, order descending by that sum. -/
def spendingByCategory (s e : Int) (txs : List Transaction) : List (String × ℚ) :=
  let cats := dedupFirst ((windowedDebits s e txs).filterMap (fun t => t.category))
  List.insertionSort (fun p q => q.2 ≤ p.2) (cats.map (fun c => (c, categorySum s e txs c)))

/-- The top-category query: head of the descending category ranking. -/
def topCategory (s e : Int) (txs : List Transaction) : Option String :=
  (spendingByCategory s e txs).head?.map (fun p => p.1)

/-- One iteration of the bucket loop per unit of fuel:
`while current_date <= end_date: week_end = min(current_date + 6, end_date);
append (current_date, week_end); current_date = week_end + 1`. -/
def weekBucketsGo : ℕ → Int → Int → List (Int × Int)
  | 0, _, _ => []
  | fuel + 1, cur, e =>
    if cur ≤ e then
      (cur, min (cur + 6) e) :: weekBucketsGo fuel (min (cur + 6) e + 1) e
    else []

/-- The week buckets of the window; the loop advances by at least one day per
iteration, so `(e - s).toNat + 1` iterations always suffice. -/
def weekBuckets (s e : Int) : List (Int × Int) :=
  weekBucketsGo ((e - s).toNat + 1) s e

/-- The point emitted for one account in one bucket:
skip unless `limit` is present and positive; `balance` is
`abs(balance) if balance else 0.0`; utilization is rounded to one decimal. -/
def accountUtilization (weekEnd : Int) (a : Account) : Option UtilizationPoint :=
  match a.limit with
  | none => none
  | some l =>
    if 0 < l then
      let b : ℚ := match a.balance with
        | none => 0
        | some b0 => |b0|
      some { date := weekEnd, utilization := pyRound (b / l * 100) 1, balance := b, limit := l }
    else none

/-- The credit-utilization chart: for each week bucket, one point per
credit-card account with a positive limit (empty when the user has no
credit-card account). -/
def creditUtilization (s e : Int) (accounts : List Account) : List UtilizationPoint :=
  let creditAccounts := accounts.filter (fun a => decide (a.accountType = "credit_card"))
  if creditAccounts.isEmpty then []
  else (weekBuckets s e).flatMap (fun wb => creditAccounts.filterMap (fun a => accountUtilization wb.2 a))

/-- Magnitudes of one merchant's windowed debits (the per-merchant re-query
of the subscription loop). -/
def merchantAmounts (s e : Int) (txs : List Transaction) (m : String) : List ℚ :=
  ((windowedDebits s e txs).filter (fun t => decide (t.merchant = m))).map (fun t => |t.amount|)

/-- The merchant grouping keys, in first-occurrence order. -/
def groupedMerchants (s e : Int) (txs : List Transaction) : List String :=
  dedupFirst ((windowedDebits s e txs).map (fun t => t.merchant))

/-- Merchants passing `HAVING count(id) >= 3`. -/
def qualifyingMerchants (s e : Int) (txs : List Transaction) : List String :=
  (groupedMerchants s e txs).filter (fun m => decide (3 ≤ (merchantAmounts s e txs m).length))

/-- `all(abs(amount - avg) / avg <= 0.1 if avg > 0 else False for amount in amounts)`. -/
def isConsistent (amounts : List ℚ) : Bool :=
  let avg := mean amounts
  amounts.all (fun a => if 0 < avg then decide (|a - avg| / avg ≤ 1/10) else false)

/-- Merchants that pass both the count filter and the consistency test. -/
def acceptedMerchants (s e : Int) (txs : List Transaction) : List String :=
  (qualifyingMerchants s e txs).filter (fun m => isConsistent (merchantAmounts s e txs m))

/-- The subscription loop: each accepted merchant is recorded with
`round(avg, 2)`, and the unrounded averages are accumulated into
`total_monthly`, rounded once at the end. -/
def subscriptionBreakdown (s e : Int) (txs : List Transaction) : SubscriptionSummary where
  total_monthly :=
    pyRound (((acceptedMerchants s e txs).map (fun m => mean (merchantAmounts s e txs m))).sum) 2
  subscriptions :=
    (acceptedMerchants s e txs).map
      (fun m => { merchant := m, amount := pyRound (mean (merchantAmounts s e txs m)) 2 })

/-- The endpoint: validate the period first (HTTP 400 on anything but
"30d"/"90d", before any data is read), resolve the window from today's date,
then assemble summary, charts and meta. -/
def getInsights (period : String) (today : Int) (txs : List Transaction)
    (accounts : List Account) : Except InsightsError InsightsResponse :=
  if period = "30d" ∨ period = "90d" then
    let endDate := today
    let startDate := if period = "30d" then endDate - 30 else endDate - 90
    let daysInPeriod := endDate - startDate
    let total := totalSpending startDate endDate txs
    Except.ok {
      summary := {
        total_spending := pyRound total 2
        average_daily_spend := pyRound (averageDailySpend total daysInPeriod) 2
        top_category := topCategory startDate endDate txs
        savings_rate := none }
      charts := {
        spending_by_category := spendingByCategory startDate endDate txs
        credit_utilization := creditUtilization startDate endDate accounts
        subscriptions := subscriptionBreakdown startDate endDate txs }
      meta := {
        period := period
        start_date := startDate
        end_date := endDate } }
  else
    Except.error InsightsError.invalidPeriod

/-- The route with its query-parameter default `period: str = Query("30d")`:
an omitted period is resolved to "30d" before the handler body runs. -/
def getInsightsRequest (periodParam : Option String) (today : Int) (txs : List Transaction)
    (accounts : List Account) : Except InsightsError InsightsResponse :=
  getInsights (periodParam.getD ("30d")) today txs accounts

/-- Three same-merchant debits of equal magnitude 10.00 (the accepted
example group of P5). -/
def steadyThree : List Transaction :=
  [{ date := 1, merchant := "A", amount := -10, category := none },
   { date := 2, merchant := "A", amount := -10, category := none },
   { date := 3, merchant := "A", amount := -10, category := none }]

/-- Three same-merchant debits of magnitudes 10.00, 10.00, 50.00 (the
rejected example group of P5). -/
def driftingThree : List Transaction :=
  [{ date := 1, merchant := "A", amount := -10, category := none },
   { date := 2, merchant := "A", amount := -10, category := none },
   { date := 3, merchant := "A", amount := -50, category := none }]

/-- Credit-card account of E2E scenario D: balance -400, limit 3000. -/
def scenarioDAccount : Account :=
  { accountType := "credit_card", balance := some (-400), limit := some 3000 }

/-- Credit-card account of P6: balance -3400, limit 5000. -/
def p6Account : Account :=
  { accountType := "credit_card", balance := some (-3400), limit := some 5000 }

/-- A credit-card account with a positive limit, used to exhibit a
no-transaction user whose utilization chart is nonetheless non-empty. -/
def strayCreditAccount : Account :=
  { accountType := "credit_card", balance := some (-100), limit := some 1000 }

/-- A single positive (credit) transaction with no category. -/
def uncategorizedCredit : Transaction :=
  { date := 0, merchant := "m", amount := 5, category := none }

/-- The utilization point scenario D's account produces in the bucket ending
at a given day: 400 / 3000 gives 13.3%. -/
def scenarioDPoint (weekEnd : Int) : UtilizationPoint :=
  { date := weekEnd, utilization := 133/10, balance := 400, limit := 3000 }

/-- The utilization point P6's account produces in the bucket ending at a
given day: 3400 / 5000 gives 68.0%. -/
def p6Point (weekEnd : Int) : UtilizationPoint :=
  { date := weekEnd, utilization := 68, balance := 3400, limit := 5000 }

/-- A single positive (credit) transaction, used to extend a transaction
list without touching its debits. -/
def payrollCredit : Transaction :=
  { date := 2, merchant := "payroll", amount := 5, category := none }

theorem mem_dedupFirst_foldl (l : List String) :
    ∀ (acc : List String) (x : String),
      x ∈ l.foldl (fun acc y => if y ∈ acc then acc else acc ++ [y]) acc ↔
        x ∈ acc ∨ x ∈ l := by
  induction l with
  | nil => intro acc x; simp
  | cons y l ih =>
    intro acc x
    rw [List.foldl_cons]
    by_cases hy : y ∈ acc
    · rw [if_pos hy, ih]
      simp only [List.mem_cons]
      constructor
      · rintro (h | h)
        · exact Or.inl h
        · exact Or.inr (Or.inr h)
      · rintro (h | rfl | h)
        · exact Or.inl h
        · exact Or.inl hy
        · exact Or.inr h
    · rw [if_neg hy, ih]
      simp only [List.mem_append, List.mem_singleton, List.mem_cons]
      tauto

theorem mem_dedupFirst {x : String} {l : List String} : x ∈ dedupFirst l ↔ x ∈ l := by
  rw [dedupFirst, mem_dedupFirst_foldl]
  simp

theorem nodup_dedupFirst_foldl (l : List String) :
    ∀ acc : List String, acc.Nodup →
      (l.foldl (fun acc y => if y ∈ acc then acc else acc ++ [y]) acc).Nodup := by
  induction l with
  | nil => intro acc h; simpa using h
  | cons y l ih =>
    intro acc h
    rw [List.foldl_cons]
    by_cases hy : y ∈ acc
    · rw [if_pos hy]; exact ih acc h
    · rw [if_neg hy]
      refine ih _ ?_
      simp only [List.nodup_append, List.nodup_singleton, true_and]
      exact ⟨h, by simpa [List.disjoint_singleton] using hy⟩

theorem nodup_dedupFirst (l : List String) : (dedupFirst l).Nodup :=
  nodup_dedupFirst_foldl l [] List.nodup_nil

theorem mem_windowedDebits {s e : Int} {txs : List Transaction} {t : Transaction} :
    t ∈ windowedDebits s e txs ↔ t ∈ txs ∧ s ≤ t.date ∧ t.date ≤ e ∧ t.amount < 0 := by
  simp [windowedDebits, List.mem_filter, and_assoc]

theorem merchantAmounts_pos {s e : Int} {txs : List Transaction} {m : String} :
    ∀ a ∈ merchantAmounts s e txs m, 0 < a := by
  intro a ha
  simp only [merchantAmounts, List.mem_map, List.mem_filter] at ha
  obtain ⟨t, ⟨ht, _⟩, rfl⟩ := ha
  exact abs_pos.mpr (ne_of_lt (mem_windowedDebits.mp ht).2.2.2)

theorem mean_pos {l : List ℚ} (hne : l ≠ []) (hpos : ∀ a ∈ l, 0 < a) : 0 < mean l := by
  rw [mean]
  refine div_pos (List.sum_pos l hpos hne) ?_
  exact_mod_cast List.length_pos.mpr hne

theorem merchantAmounts_ne_nil {s e : Int} {txs : List Transaction} {m : String}
    (h : 3 ≤ (merchantAmounts s e txs m).length) : merchantAmounts s e txs m ≠ [] := by
  intro hnil
  rw [hnil] at h
  simp at h

theorem mean_merchantAmounts_pos {s e : Int} {txs : List Transaction} {m : String}
    (h : 3 ≤ (merchantAmounts s e txs m).length) : 0 < mean (merchantAmounts s e txs m) :=
  mean_pos (merchantAmounts_ne_nil h) merchantAmounts_pos

theorem mem_groupedMerchants_of_count {s e : Int} {txs : List Transaction} {m : String}
    (h : 3 ≤ (merchantAmounts s e txs m).length) : m ∈ groupedMerchants s e txs := by
  rw [groupedMerchants, mem_dedupFirst]
  have hne : (windowedDebits s e txs).filter (fun t => decide (t.merchant = m)) ≠ [] := by
    intro hnil
    rw [merchantAmounts, hnil] at h
    simp at h
  obtain ⟨t, ht⟩ := List.exists_mem_of_ne_nil _ hne
  obtain ⟨htw, hmt⟩ := List.mem_filter.mp ht
  exact List.mem_map.mpr ⟨t, htw, of_decide_eq_true hmt⟩

theorem mem_acceptedMerchants {s e : Int} {txs : List Transaction} {m : String} :
    m ∈ acceptedMerchants s e txs ↔
      3 ≤ (merchantAmounts s e txs m).length ∧
        isConsistent (merchantAmounts s e txs m) = true := by
  rw [acceptedMerchants, List.mem_filter, qualifyingMerchants, List.mem_filter]
  constructor
  · rintro ⟨⟨_, hc⟩, hcons⟩
    exact ⟨of_decide_eq_true hc, hcons⟩
  · rintro ⟨hc, hcons⟩
    exact ⟨⟨mem_groupedMerchants_of_count hc, decide_eq_true hc⟩, hcons⟩

theorem isConsistent_eq_true_iff {l : List ℚ} (havg : 0 < mean l) :
    isConsistent l = true ↔ ∀ a ∈ l, |a - mean l| / mean l ≤ 1/10 := by
  rw [isConsistent, List.all_eq_true]
  constructor <;> intro h a ha
  · have hb := h a ha
    rw [if_pos havg] at hb
    exact of_decide_eq_true hb
  · rw [if_pos havg]
    exact decide_eq_true (h a ha)

/-- C1: a merchant appears in the subscriptions output iff it has at least 3
windowed debit transactions whose magnitudes all lie within 10% of their mean
(a zero mean is rejected); each accepted merchant is recorded with
`round(avg, 2)`, `total_monthly` is the rounding of the sum of the unrounded
averages, and on the concrete groups [10, 10, 10] is accepted with amount 10
while [10, 10, 50] is rejected. -/
theorem c1_subscription_detector :
    (∀ (s e : Int) (txs : List Transaction) (m : String),
      (∃ en ∈ (subscriptionBreakdown s e txs).subscriptions, en.merchant = m) ↔
        3 ≤ (merchantAmounts s e txs m).length ∧
          mean (merchantAmounts s e txs m) ≠ 0 ∧
          ∀ a ∈ merchantAmounts s e txs m,
            |a - mean (merchantAmounts s e txs m)| / mean (merchantAmounts s e txs m) ≤ 1/10)
    ∧ (∀ (s e : Int) (txs : List Transaction),
        ∀ en ∈ (subscriptionBreakdown s e txs).subscriptions,
          en.amount = pyRound (mean (merchantAmounts s e txs en.merchant)) 2)
    ∧ (∀ (s e : Int) (txs : List Transaction),
        (subscriptionBreakdown s e txs).total_monthly =
          pyRound (((subscriptionBreakdown s e txs).subscriptions.map
            (fun en => mean (merchantAmounts s e txs en.merchant))).sum) 2)
    ∧ (subscriptionBreakdown 0 30 steadyThree).subscriptions =
        [{ merchant := "A", amount := 10 }]
    ∧ (subscriptionBreakdown 0 30 driftingThree).subscriptions = [] := by
  refine ⟨?_, ?_, ?_, ?_, ?_⟩
  · intro s e txs m
    have hmem : (∃ en ∈ (subscriptionBreakdown s e txs).subscriptions, en.merchant = m) ↔
        m ∈ acceptedMerchants s e txs := by
      simp [subscriptionBreakdown, List.mem_map]
    rw [hmem, mem_acceptedMerchants]
    constructor
    · rintro ⟨h3, hcons⟩
      have havg := mean_merchantAmounts_pos h3
      exact ⟨h3, ne_of_gt havg, (isConsistent_eq_true_iff havg).mp hcons⟩
    · rintro ⟨h3, _, hall⟩
      have havg := mean_merchantAmounts_pos h3
      exact ⟨h3, (isConsistent_eq_true_iff havg).mpr hall⟩
  · intro s e txs en hen
    simp only [subscriptionBreakdown, List.mem_map] at hen
    obtain ⟨m, _, rfl⟩ := hen
    rfl
  · intro s e txs
    simp only [subscriptionBreakdown, List.map_map]
    rfl
  · norm_num [subscriptionBreakdown, acceptedMerchants, qualifyingMerchants, groupedMerchants,
      merchantAmounts, windowedDebits, dedupFirst, steadyThree, isConsistent, mean,
      pyRound, roundHalfEven]
  · norm_num [subscriptionBreakdown, acceptedMerchants, qualifyingMerchants, groupedMerchants,
      merchantAmounts, windowedDebits, dedupFirst, driftingThree, isConsistent, mean,
      abs_of_nonneg, abs_of_nonpos]

/-- C10: every magnitude reaching the consistency check is the absolute value
of a negative amount, hence strictly positive, so the mean of a group of at
least 3 of them is strictly positive; consequently the division by the mean is
safe and the avg == 0 rejection branch is unreachable (the check degenerates
to the plain 10%-band test). -/
theorem c10_consistency_division_safe (s e : Int) (txs : List Transaction) (m : String)
    (h3 : 3 ≤ (merchantAmounts s e txs m).length) :
    (∀ a ∈ merchantAmounts s e txs m, 0 < a) ∧
      0 < mean (merchantAmounts s e txs m) ∧
      isConsistent (merchantAmounts s e txs m) =
        (merchantAmounts s e txs m).all
          (fun a => decide (|a - mean (merchantAmounts s e txs m)| /
            mean (merchantAmounts s e txs m) ≤ 1/10)) := by
  have havg := mean_merchantAmounts_pos h3
  refine ⟨merchantAmounts_pos, havg, ?_⟩
  simp [isConsistent, havg]

/-- C10 witness: the merchant "A" of the steady example group has 3 windowed
debits, so the theorem applies and yields a strictly positive mean. -/
theorem c10_consistency_division_safe_witness :
    (∀ a ∈ merchantAmounts 0 30 steadyThree ("A"), 0 < a) ∧
      0 < mean (merchantAmounts 0 30 steadyThree ("A")) ∧
      isConsistent (merchantAmounts 0 30 steadyThree ("A")) =
        (merchantAmounts 0 30 steadyThree ("A")).all
          (fun a => decide (|a - mean (merchantAmounts 0 30 steadyThree ("A"))| /
            mean (merchantAmounts 0 30 steadyThree ("A")) ≤ 1/10)) :=
  c10_consistency_division_safe 0 30 steadyThree ("A") (by decide)

theorem weekBucketsGo_of_lt (fuel : ℕ) (cur e : Int) (h : e < cur) :
    weekBucketsGo fuel cur e = [] := by
  cases fuel with
  | zero => rfl
  | succ f =>
    simp only [weekBucketsGo]
    rw [if_neg (by omega)]

theorem weekBucketsGo_closed : ∀ (n fuel : ℕ) (cur e : Int), cur ≤ e →
    (e - cur).toNat / 7 = n → n < fuel →
    weekBucketsGo fuel cur e =
      (List.range (n + 1)).map
        (fun i : ℕ => (cur + 7 * (i : Int), min (cur + 7 * (i : Int) + 6) e)) := by
  intro n
  induction n with
  | zero =>
    intro fuel cur e hle hd hf
    obtain ⟨f, rfl⟩ : ∃ f, fuel = f + 1 := ⟨fuel - 1, by omega⟩
    have h6 : e ≤ cur + 6 := by omega
    simp only [weekBucketsGo]
    rw [if_pos hle]
    have hmin : min (cur + 6) e = e := by omega
    rw [hmin, weekBucketsGo_of_lt _ _ _ (by omega)]
    rw [show List.range 1 = [0] from rfl, List.map_cons, List.map_nil]
    refine List.cons_eq_cons.mpr ⟨?_, rfl⟩
    simp only [Nat.cast_zero, Prod.mk.injEq]
    constructor <;> omega
  | succ n ih =>
    intro fuel cur e hle hd hf
    obtain ⟨f, rfl⟩ : ∃ f, fuel = f + 1 := ⟨fuel - 1, by omega⟩
    have h7 : cur + 7 ≤ e := by omega
    simp only [weekBucketsGo]
    rw [if_pos hle]
    have hmin : min (cur + 6) e = cur + 6 := by omega
    rw [hmin, show cur + 6 + 1 = cur + 7 from by ring,
      ih f (cur + 7) e (by omega) (by omega) (by omega)]
    conv_rhs => rw [List.range_succ_eq_map, List.map_cons, List.map_map]
    refine List.cons_eq_cons.mpr ⟨?_, ?_⟩
    · simp only [Nat.cast_zero, Prod.mk.injEq]
      constructor <;> omega
    · refine List.map_congr_left ?_
      intro i _
      simp only [Function.comp, Nat.succ_eq_add_one, Prod.mk.injEq]
      push_cast
      constructor <;> omega

theorem weekBuckets_closed (s e : Int) (h : s ≤ e) :
    weekBuckets s e =
      (List.range ((e - s).toNat / 7 + 1)).map
        (fun i : ℕ => (s + 7 * (i : Int), min (s + 7 * (i : Int) + 6) e)) :=
  weekBucketsGo_closed _ _ s e h rfl (by omega)

theorem length_weekBuckets (s e : Int) (h : s ≤ e) :
    (weekBuckets s e).length = (e - s).toNat / 7 + 1 := by
  rw [weekBuckets_closed s e h]
  simp

theorem flatMap_singleton_eq_map {α β : Type} (l : List α) (g : α → β) :
    l.flatMap (fun x => [g x]) = l.map g := by
  induction l with
  | nil => rfl
  | cons x l ih => simp [ih]

theorem creditUtilization_single (s e : Int) (a : Account)
    (hcc : a.accountType = "credit_card") (g : Int → UtilizationPoint)
    (h : ∀ we, accountUtilization we a = some (g we)) :
    creditUtilization s e [a] = (weekBuckets s e).map (fun wb => g wb.2) := by
  have hfilter : [a].filter (fun x => decide (x.accountType = "credit_card")) = [a] := by
    simp [hcc]
  simp only [creditUtilization, hfilter, List.isEmpty_cons, Bool.false_eq_true, if_false,
    List.filterMap_cons, List.filterMap_nil, h]
  exact flatMap_singleton_eq_map _ _

theorem accountUtilization_scenarioD (we : Int) :
    accountUtilization we scenarioDAccount = some (scenarioDPoint we) := by
  norm_num [accountUtilization, scenarioDAccount, scenarioDPoint, pyRound, roundHalfEven]

theorem accountUtilization_p6 (we : Int) :
    accountUtilization we p6Account = some (p6Point we) := by
  norm_num [accountUtilization, p6Account, p6Point, pyRound, roundHalfEven]

theorem getInsights_valid_30d (today : Int) (txs : List Transaction)
    (accounts : List Account) :
    getInsights ("30d") today txs accounts = Except.ok {
      summary := {
        total_spending := pyRound (totalSpending (today - 30) today txs) 2
        average_daily_spend :=
          pyRound (averageDailySpend (totalSpending (today - 30) today txs)
            (today - (today - 30))) 2
        top_category := topCategory (today - 30) today txs
        savings_rate := none }
      charts := {
        spending_by_category := spendingByCategory (today - 30) today txs
        credit_utilization := creditUtilization (today - 30) today accounts
        subscriptions := subscriptionBreakdown (today - 30) today txs }
      meta := { period := "30d", start_date := today - 30, end_date := today } } := rfl

theorem getInsights_valid_90d (today : Int) (txs : List Transaction)
    (accounts : List Account) :
    getInsights ("90d") today txs accounts = Except.ok {
      summary := {
        total_spending := pyRound (totalSpending (today - 90) today txs) 2
        average_daily_spend :=
          pyRound (averageDailySpend (totalSpending (today - 90) today txs)
            (today - (today - 90))) 2
        top_category := topCategory (today - 90) today txs
        savings_rate := none }
      charts := {
        spending_by_category := spendingByCategory (today - 90) today txs
        credit_utilization := creditUtilization (today - 90) today accounts
        subscriptions := subscriptionBreakdown (today - 90) today txs }
      meta := { period := "90d", start_date := today - 90, end_date := today } } := rfl

/-- C3: the utilization computation partitions the inclusive window into
contiguous 7-day buckets starting at start_date, the final bucket truncated to
end at end_date; a "30d" window yields exactly 5 buckets, and a single
credit-card account with balance -400 and limit 3000 gets utilization 13.3 in
every bucket. -/
theorem c3_week_buckets :
    (∀ (s e : Int), s ≤ e →
      weekBuckets s e =
        (List.range ((e - s).toNat / 7 + 1)).map
          (fun i : ℕ => (s + 7 * (i : Int), min (s + 7 * (i : Int) + 6) e)))
    ∧ (∀ today : Int, (weekBuckets (today - 30) today).length = 5)
    ∧ (∀ today : Int, ∃ r,
        getInsights ("30d") today [] [scenarioDAccount] = Except.ok r ∧
          r.charts.credit_utilization.length = 5 ∧
          ∀ p ∈ r.charts.credit_utilization, p.utilization = 133/10) := by
  refine ⟨weekBuckets_closed, ?_, ?_⟩
  · intro today
    rw [length_weekBuckets _ _ (by omega)]
    omega
  · intro today
    have hutil : creditUtilization (today - 30) today [scenarioDAccount] =
        (weekBuckets (today - 30) today).map (fun wb => scenarioDPoint wb.2) :=
      creditUtilization_single _ _ _ rfl _ accountUtilization_scenarioD
    refine ⟨_, getInsights_valid_30d today [] [scenarioDAccount], ?_, ?_⟩
    · show (creditUtilization (today - 30) today [scenarioDAccount]).length = 5
      rw [hutil, List.length_map, length_weekBuckets _ _ (by omega)]
      omega
    · show ∀ p ∈ creditUtilization (today - 30) today [scenarioDAccount],
        p.utilization = 133/10
      rw [hutil]
      intro p hp
      obtain ⟨wb, _, rfl⟩ := List.mem_map.mp hp
      rfl

/-- C4: an emitted utilization point carries
`round(abs(balance) / limit * 100, 1)` and requires a present, positive limit;
no point is emitted otherwise; the utilization value does not depend on the
bucket, and the P6 account (balance -3400, limit 5000) yields 68.0 in every
bucket. -/
theorem c4_utilization_value :
    (∀ (we : Int) (a : Account) (p : UtilizationPoint),
      accountUtilization we a = some p →
        ∃ l, a.limit = some l ∧ 0 < l ∧
          p.utilization = pyRound (|a.balance.getD 0| / l * 100) 1)
    ∧ (∀ (we : Int) (a : Account),
        (a.limit = none ∨ ∃ l, a.limit = some l ∧ l ≤ 0) →
          accountUtilization we a = none)
    ∧ (∀ (we we' : Int) (a : Account),
        (accountUtilization we a).map (fun p => p.utilization) =
          (accountUtilization we' a).map (fun p => p.utilization))
    ∧ (∀ (s e : Int), ∀ p ∈ creditUtilization s e [p6Account], p.utilization = 68) := by
  refine ⟨?_, ?_, ?_, ?_⟩
  · intro we a p h
    cases hl : a.limit with
    | none => simp [accountUtilization, hl] at h
    | some l =>
      simp only [accountUtilization, hl] at h
      by_cases h0 : 0 < l
      · rw [if_pos h0] at h
        injection h with h
        subst h
        refine ⟨l, rfl, h0, ?_⟩
        cases hb : a.balance <;> simp [hb]
      · rw [if_neg h0] at h
        simp at h
  · intro we a h
    rcases h with hl | ⟨l, hl, hle⟩
    · simp [accountUtilization, hl]
    · simp only [accountUtilization, hl]
      rw [if_neg (not_lt.mpr hle)]
  · intro we we' a
    cases hl : a.limit with
    | none => simp [accountUtilization, hl]
    | some l =>
      by_cases h0 : 0 < l <;> simp [accountUtilization, hl, h0]
  · intro s e p hp
    by_cases hse : s ≤ e
    · have hutil : creditUtilization s e [p6Account] =
          (weekBuckets s e).map (fun wb => p6Point wb.2) :=
        creditUtilization_single _ _ _ rfl _ accountUtilization_p6
      rw [hutil] at hp
      obtain ⟨wb, _, rfl⟩ := List.mem_map.mp hp
      rfl
    · have hutil : creditUtilization s e [p6Account] =
          (weekBuckets s e).map (fun wb => p6Point wb.2) :=
        creditUtilization_single _ _ _ rfl _ accountUtilization_p6
      rw [hutil] at hp
      obtain ⟨wb, _, rfl⟩ := List.mem_map.mp hp
      rfl

/-- C5: for "30d" the resolved window has end_date = today and spans exactly
30 days, for "90d" exactly 90; days_in_period = end_date - start_date is the
averaging denominator, and an empty (0-day) period yields average 0. -/
theorem c5_window_resolution :
    (∀ (today : Int) (txs : List Transaction) (accounts : List Account),
      ∃ r, getInsights ("30d") today txs accounts = Except.ok r ∧
        r.meta.end_date = today ∧ r.meta.end_date - r.meta.start_date = 30 ∧
        r.summary.average_daily_spend =
          pyRound (averageDailySpend (totalSpending r.meta.start_date r.meta.end_date txs)
            (r.meta.end_date - r.meta.start_date)) 2)
    ∧ (∀ (today : Int) (txs : List Transaction) (accounts : List Account),
      ∃ r, getInsights ("90d") today txs accounts = Except.ok r ∧
        r.meta.end_date = today ∧ r.meta.end_date - r.meta.start_date = 90 ∧
        r.summary.average_daily_spend =
          pyRound (averageDailySpend (totalSpending r.meta.start_date r.meta.end_date txs)
            (r.meta.end_date - r.meta.start_date)) 2)
    ∧ (∀ q : ℚ, averageDailySpend q 0 = 0) := by
  refine ⟨?_, ?_, ?_⟩
  · intro today txs accounts
    refine ⟨_, getInsights_valid_30d today txs accounts, rfl,
      by show today - (today - 30) = 30; omega, rfl⟩
  · intro today txs accounts
    refine ⟨_, getInsights_valid_90d today txs accounts, rfl,
      by show today - (today - 90) = 90; omega, rfl⟩
  · intro q
    simp [averageDailySpend]

/-- C6: any period outside {"30d", "90d"} is rejected with the InvalidPeriod
validation error, independently of the user's data (validation precedes any
data access). -/
theorem c6_invalid_period (period : String) (today : Int) (txs : List Transaction)
    (accounts : List Account) (h30 : period ≠ "30d") (h90 : period ≠ "90d") :
    getInsights period today txs accounts = Except.error InsightsError.invalidPeriod := by
  simp only [getInsights]
  rw [if_neg (by simp [h30, h90])]

/-- C6 witness: the invalid period "60d" is rejected. -/
theorem c6_invalid_period_witness :
    getInsights ("60d") 0 [] [] = Except.error InsightsError.invalidPeriod :=
  c6_invalid_period ("60d") 0 [] [] (by decide) (by decide)

/-- C9: an omitted period parameter defaults to "30d": the response equals the
explicit "30d" response and the default is accepted, never rejected. -/
theorem c9_default_period (today : Int) (txs : List Transaction)
    (accounts : List Account) :
    getInsightsRequest none today txs accounts = getInsights ("30d") today txs accounts ∧
      ∃ r, getInsightsRequest none today txs accounts = Except.ok r :=
  ⟨rfl, ⟨_, getInsights_valid_30d today txs accounts⟩⟩

theorem sum_map_zero {α : Type} (l : List α) : (l.map (fun _ => (0:ℚ))).sum = 0 := by
  induction l with
  | nil => rfl
  | cons x l ih => simp [ih]

theorem filter_cat_sum (l : List Transaction) (c : String) :
    ((l.filter (fun t => decide (t.category = some c))).map (fun t => |t.amount|)).sum =
      (l.map (fun t => if t.category = some c then |t.amount| else 0)).sum := by
  induction l with
  | nil => rfl
  | cons t l ih => by_cases h : t.category = some c <;> simp [List.filter_cons, h, ih]

theorem filter_ne_none_sum (l : List Transaction) :
    ((l.filter (fun t => decide (t.category ≠ none))).map (fun t => |t.amount|)).sum =
      (l.map (fun t => if t.category = none then 0 else |t.amount|)).sum := by
  induction l with
  | nil => rfl
  | cons t l ih =>
    rw [List.filter_cons]
    by_cases h : t.category = none
    · rw [if_neg (by simp [h]), List.map_cons, List.sum_cons, ih, if_pos h, zero_add]
    · rw [if_pos (by simp [h]), List.map_cons, List.sum_cons, List.map_cons, List.sum_cons,
        ih, if_neg h]

theorem filter_eq_none_sum (l : List Transaction) :
    ((l.filter (fun t => decide (t.category = none))).map (fun t => |t.amount|)).sum =
      (l.map (fun t => if t.category = none then |t.amount| else 0)).sum := by
  induction l with
  | nil => rfl
  | cons t l ih => by_cases h : t.category = none <;> simp [List.filter_cons, h, ih]

theorem sum_comm_lists (cats : List String) (l : List Transaction)
    (F : String → Transaction → ℚ) :
    (cats.map (fun c => (l.map (F c)).sum)).sum =
      (l.map (fun t => (cats.map (fun c => F c t)).sum)).sum := by
  induction cats with
  | nil => simp [sum_map_zero]
  | cons c cs ih => simp [List.sum_map_add, ih]

theorem indicator_sum_zero (cats : List String) (c0 : String) (x : ℚ) (h : c0 ∉ cats) :
    (cats.map (fun c => if c0 = c then x else 0)).sum = 0 := by
  induction cats with
  | nil => rfl
  | cons c cs ih =>
    simp only [List.mem_cons, not_or] at h
    simp [h.1, ih h.2]

theorem indicator_sum_of_nodup (cats : List String) (c0 : String) (x : ℚ)
    (hnd : cats.Nodup) (hc : c0 ∈ cats) :
    (cats.map (fun c => if c0 = c then x else 0)).sum = x := by
  induction cats with
  | nil => cases hc
  | cons c cs ih =>
    obtain ⟨hnotin, hnd2⟩ := List.nodup_cons.mp hnd
    rcases List.mem_cons.mp hc with rfl | hmem
    · simp [indicator_sum_zero cs c0 x hnotin]
    · have hne : c0 ≠ c := fun he => hnotin (he ▸ hmem)
      simp [hne, ih hnd2 hmem]

theorem windowed_abs_sum_split (l : List Transaction) :
    (l.map (fun t => |t.amount|)).sum =
      ((l.filter (fun t => decide (t.category ≠ none))).map (fun t => |t.amount|)).sum +
        ((l.filter (fun t => decide (t.category = none))).map (fun t => |t.amount|)).sum := by
  rw [filter_ne_none_sum, filter_eq_none_sum, ← List.sum_map_add]
  refine congrArg List.sum (List.map_congr_left ?_)
  intro t _
  by_cases h : t.category = none
  · simp [h]
  · simp [h]

theorem spendingByCategory_sum (s e : Int) (txs : List Transaction) :
    ((spendingByCategory s e txs).map (fun p => p.2)).sum =
      (((windowedDebits s e txs).filter (fun t => decide (t.category ≠ none))).map
        (fun t => |t.amount|)).sum := by
  have hperm :
      ((spendingByCategory s e txs).map (fun p => p.2)).Perm
        (((dedupFirst ((windowedDebits s e txs).filterMap (fun t => t.category))).map
          (fun c => (c, categorySum s e txs c))).map (fun p => p.2)) :=
    (List.perm_insertionSort _ _).map _
  rw [hperm.sum_eq, List.map_map]
  have hstep :
      ((dedupFirst ((windowedDebits s e txs).filterMap (fun t => t.category))).map
        ((fun p : String × ℚ => p.2) ∘ fun c => (c, categorySum s e txs c))).sum =
      ((dedupFirst ((windowedDebits s e txs).filterMap (fun t => t.category))).map
        (fun c => categorySum s e txs c)).sum := rfl
  rw [hstep]
  simp only [categorySum, filter_cat_sum]
  rw [sum_comm_lists _ _ (fun c t => if t.category = some c then |t.amount| else 0),
    filter_ne_none_sum]
  refine congrArg List.sum (List.map_congr_left ?_)
  intro t ht
  cases htc : t.category with
  | none => simp [htc, sum_map_zero]
  | some c0 =>
    have hc0 : c0 ∈ dedupFirst ((windowedDebits s e txs).filterMap (fun t => t.category)) :=
      mem_dedupFirst.mpr (List.mem_filterMap.mpr ⟨t, ht, htc⟩)
    simp only [htc, Option.some.injEq, reduceCtorEq, if_false]
    exact indicator_sum_of_nodup _ c0 _ (nodup_dedupFirst _) hc0

/-- C2 counterexample: a single positive (credit) transaction with
category = None makes both the category-breakdown sum and total_spend 0, so
equality holds even though a transaction has category = None — refuting
"equality iff no transaction has category = None" read over the whole input. -/
theorem c2_category_partition_counterexample :
    ¬ ((((spendingByCategory 0 0 [uncategorizedCredit]).map (fun p => p.2)).sum =
          totalSpending 0 0 [uncategorizedCredit]) ↔
        ∀ t ∈ [uncategorizedCredit], t.category ≠ none) := by
  decide

/-- C2 (amended): the category-breakdown sum never exceeds total_spend, and
equality holds iff no transaction inside the window with amount < 0 (i.e. no
aggregated debit) has category = None. -/
theorem c2_category_partition (s e : Int) (txs : List Transaction) :
    ((spendingByCategory s e txs).map (fun p => p.2)).sum ≤ totalSpending s e txs ∧
      (((spendingByCategory s e txs).map (fun p => p.2)).sum = totalSpending s e txs ↔
        ∀ t ∈ txs, s ≤ t.date → t.date ≤ e → t.amount < 0 → t.category ≠ none) := by
  have hsum := spendingByCategory_sum s e txs
  have htot : totalSpending s e txs =
      (((windowedDebits s e txs).filter (fun t => decide (t.category ≠ none))).map
        (fun t => |t.amount|)).sum +
      (((windowedDebits s e txs).filter (fun t => decide (t.category = none))).map
        (fun t => |t.amount|)).sum :=
    windowed_abs_sum_split (windowedDebits s e txs)
  have hnonneg : 0 ≤ (((windowedDebits s e txs).filter
      (fun t => decide (t.category = none))).map (fun t => |t.amount|)).sum := by
    refine List.sum_nonneg ?_
    intro x hx
    obtain ⟨t, _, rfl⟩ := List.mem_map.mp hx
    exact abs_nonneg _
  constructor
  · rw [hsum, htot]
    exact le_add_of_nonneg_right hnonneg
  · rw [hsum, htot]
    constructor
    · intro heq t ht h1 h2 h3 hcontra
      have htw : t ∈ windowedDebits s e txs := mem_windowedDebits.mpr ⟨ht, h1, h2, h3⟩
      have htf : t ∈ (windowedDebits s e txs).filter
          (fun t => decide (t.category = none)) :=
        List.mem_filter.mpr ⟨htw, decide_eq_true hcontra⟩
      have hpos : 0 < (((windowedDebits s e txs).filter
          (fun t => decide (t.category = none))).map (fun t => |t.amount|)).sum := by
        refine List.sum_pos _ ?_ ?_
        · intro x hx
          obtain ⟨u, hu, rfl⟩ := List.mem_map.mp hx
          have huw : u ∈ windowedDebits s e txs := (List.mem_filter.mp hu).1
          exact abs_pos.mpr (ne_of_lt (mem_windowedDebits.mp huw).2.2.2)
        · simp only [ne_eq, List.map_eq_nil_iff]
          exact List.ne_nil_of_mem htf
      linarith
    · intro hall
      have hfilter : (windowedDebits s e txs).filter
          (fun t => decide (t.category = none)) = [] := by
        rw [List.filter_eq_nil_iff]
        intro t ht hdec
        obtain ⟨htx, h1, h2, h3⟩ := mem_windowedDebits.mp ht
        exact hall t htx h1 h2 h3 (of_decide_eq_true hdec)
      rw [hfilter]
      simp

theorem pyRound_zero (n : ℕ) : pyRound 0 n = 0 := by
  norm_num [pyRound, roundHalfEven]

theorem averageDailySpend_zero_total (d : Int) : averageDailySpend 0 d = 0 := by
  simp [averageDailySpend]

theorem creditUtilization_eq_nil (s e : Int) (accounts : List Account)
    (h : ∀ a ∈ accounts, a.accountType = "credit_card" → ∀ l, a.limit = some l → l ≤ 0) :
    creditUtilization s e accounts = [] := by
  simp only [creditUtilization]
  by_cases hemp : (accounts.filter (fun a => decide (a.accountType = "credit_card"))).isEmpty
  · rw [if_pos hemp]
  · rw [if_neg hemp, List.flatMap_eq_nil_iff]
    intro wb _
    rw [List.filterMap_eq_nil_iff]
    intro a ha
    obtain ⟨hmem, hcc⟩ := List.mem_filter.mp ha
    have hcc2 : a.accountType = "credit_card" := of_decide_eq_true hcc
    cases hl : a.limit with
    | none => simp [accountUtilization, hl]
    | some l =>
      simp only [accountUtilization, hl]
      rw [if_neg (not_lt.mpr (h a hmem hcc2 l hl))]

/-- C7 counterexample: a user with no transactions but one credit-card
account with a positive limit still gets a non-empty credit_utilization
chart, refuting "no transactions implies all chart arrays empty". -/
theorem c7_empty_user_counterexample :
    (getInsights ("30d") 100 [] [strayCreditAccount]).toOption.map
      (fun r => r.charts.credit_utilization.isEmpty) = some false := by
  decide

/-- C7 (amended): with no transactions and period "30d", the summary is all
zero/null and the category/subscription charts are empty; credit_utilization
is additionally empty provided no credit-card account has a positive limit.
savings_rate is None in every successful response, for every input. -/
theorem c7_empty_user_insights :
    (∀ (today : Int) (accounts : List Account),
      (∀ a ∈ accounts, a.accountType = "credit_card" → ∀ l, a.limit = some l → l ≤ 0) →
      ∃ r, getInsights ("30d") today [] accounts = Except.ok r ∧
        r.summary.total_spending = 0 ∧ r.summary.average_daily_spend = 0 ∧
        r.summary.top_category = none ∧ r.summary.savings_rate = none ∧
        r.charts.spending_by_category = [] ∧ r.charts.credit_utilization = [] ∧
        r.charts.subscriptions.subscriptions = [] ∧
        r.charts.subscriptions.total_monthly = 0)
    ∧ (∀ (period : String) (today : Int) (txs : List Transaction)
        (accounts : List Account) (r : InsightsResponse),
        getInsights period today txs accounts = Except.ok r →
          r.summary.savings_rate = none) := by
  constructor
  · intro today accounts h
    refine ⟨_, getInsights_valid_30d today [] accounts, ?_, ?_, rfl, rfl, rfl, ?_, rfl, ?_⟩
    · show pyRound 0 2 = 0
      exact pyRound_zero 2
    · show pyRound (averageDailySpend 0 (today - (today - 30))) 2 = 0
      rw [averageDailySpend_zero_total]
      exact pyRound_zero 2
    · exact creditUtilization_eq_nil _ _ _ h
    · show pyRound 0 2 = 0
      exact pyRound_zero 2
  · intro period today txs accounts r hok
    simp only [getInsights] at hok
    by_cases hv : period = "30d" ∨ period = "90d"
    · rw [if_pos hv] at hok
      injection hok with hok
      rw [← hok]
    · rw [if_neg hv] at hok
      simp at hok

/-- C8: total_spend is non-negative for every input, and appending any batch
of positive-amount (credit) transactions leaves it unchanged: only debits
enter the sum of absolute values. -/
theorem c8_spend_nonneg_credits_ignored (s e : Int) (txs extra : List Transaction)
    (hpos : ∀ t ∈ extra, 0 < t.amount) :
    0 ≤ totalSpending s e txs ∧
      totalSpending s e (txs ++ extra) = totalSpending s e txs := by
  constructor
  · refine List.sum_nonneg ?_
    intro x hx
    obtain ⟨t, _, rfl⟩ := List.mem_map.mp hx
    exact abs_nonneg _
  · have hnil : extra.filter
        (fun t => decide (s ≤ t.date) && decide (t.date ≤ e) && decide (t.amount < 0)) = [] := by
      rw [List.filter_eq_nil_iff]
      intro t ht
      simp only [Bool.and_eq_true, decide_eq_true_eq]
      rintro ⟨-, hneg⟩
      exact absurd hneg (not_lt.mpr (hpos t ht).le)
    simp only [totalSpending, windowedDebits, List.filter_append, hnil, List.append_nil]

/-- C8 witness: appending one positive credit of 5 to the steady example
leaves total spending unchanged, which stays non-negative. -/
theorem c8_spend_nonneg_credits_ignored_witness :
    0 ≤ totalSpending 0 30 steadyThree ∧
      totalSpending 0 30 (steadyThree ++ [payrollCredit]) = totalSpending 0 30 steadyThree :=
  c8_spend_nonneg_credits_ignored 0 30 steadyThree [payrollCredit] (by decide)

end CrEdit
